import Mathlib

/-!
# libevm: `EvmApply`

A shallow embedding of `libevm/lib/service_evm.go`: parameter defaulting, construction of
the block and transaction contexts, the tracer configuration, access-list preparation, the
call / contract-creation dispatch with its nonce correction, and the classification of the
interpreter outcome into an `EvmResult`.

The go-ethereum virtual machine (`vm.EVM`) is a library outside this package.  It is embedded as
a value of type `Interpreter`: two total functions, one per entry point used by `EvmApply`
(`evm.Create`, `evm.Call`), each mapping the state view it is handed to the values it
returns together with the state view it leaves behind.  Every theorem quantifies over all
such interpreters.

Machine integers are natural numbers; `uint64` subtraction is written out modulo `2 ^ 64`.
-/

namespace LibEvm

/-! ## Basic types -/

/-- A 20-byte account address (`common.Address`), read as a number. -/
abbrev Address := Nat

/-- A 32-byte value (`common.Hash`), read as a number. -/
abbrev Hash := Nat

/-- A Go byte slice; the nil slice and the empty slice are both the empty list. -/
abbrev Bytes := List Nat

/-- The constant `math.MaxInt64`. -/
def MaxInt64 : Nat := 2 ^ 63 - 1

/-- The constant `math.MaxUint64`, the largest value of an unsigned 64-bit field. -/
def MaxUint64 : Nat := 2 ^ 64 - 1

/-- The constant `params.InitialBaseFee` of go-ethereum. -/
def InitialBaseFee : Nat := 1000000000

/-- Subtraction of two `uint64` values as Go computes it: modulo `2 ^ 64`. -/
def subUint64 (a b : Nat) : Nat := (a % 2 ^ 64 + (2 ^ 64 - b % 2 ^ 64)) % 2 ^ 64

/-- One entry of `types.AccessList`. -/
structure AccessTuple where
  Addr : Address
  StorageKeys : List Hash
deriving DecidableEq, Repr

/-! ## Parameters (`EvmParams`, `EvmContext`, `TraceParams`) -/

/-- The struct `TraceParams`; a field left out of the JSON input is `false`. -/
structure TraceParams where
  EnableMemory : Bool
  DisableStack : Bool
  DisableStorage : Bool
  EnableReturnData : Bool
deriving DecidableEq, Repr

/-- The struct `EvmContext`; pointer fields are options, `nil` being `none`. -/
structure EvmContext where
  Coinbase : Address
  GasLimit : Nat
  BlockNumber : Option Nat
  Time : Option Nat
  BaseFee : Option Nat
  Random : Option Hash
deriving DecidableEq, Repr

/-- The struct `EvmParams` (`Handle` comes from the embedded `HandleParams`). -/
structure EvmParams where
  Handle : Int
  From : Address
  To : Option Address
  Value : Nat
  Input : Bytes
  AvailableGas : Nat
  GasPrice : Nat
  AccessList : List AccessTuple
  Context : EvmContext
  TxTraceParams : Option TraceParams
deriving DecidableEq, Repr

/-- The method `(c *EvmContext) setDefaults`; `now` is the value of `time.Now().Unix()`. -/
def EvmContext.setDefaults (now : Nat) (c : EvmContext) : EvmContext :=
  let c := if c.Random = none then { c with Random := some 0 } else c
  let c := if c.BlockNumber = none then { c with BlockNumber := some 0 } else c
  let c := if c.Time = none then { c with Time := some now } else c
  let c := if c.BaseFee = none then { c with BaseFee := some InitialBaseFee } else c
  if c.GasLimit = 0 then { c with GasLimit := MaxInt64 } else c

/-- The method `(p *EvmParams) setDefaults`. -/
def EvmParams.setDefaults (now : Nat) (p : EvmParams) : EvmParams :=
  let p := if p.AvailableGas = 0 then { p with AvailableGas := MaxInt64 } else p
  { p with Context := p.Context.setDefaults now }

/-! ## Contexts handed to the interpreter -/

/-- The data fields of `vm.BlockContext` (its three function fields are fixed). -/
structure BlockContext where
  Coinbase : Address
  GasLimit : Nat
  BlockNumber : Option Nat
  Time : Option Nat
  Difficulty : Nat
  BaseFee : Option Nat
  Random : Option Hash
deriving DecidableEq, Repr

/-- The method `(c *EvmContext) getBlockContext`. -/
def EvmContext.getBlockContext (c : EvmContext) : BlockContext :=
  { Coinbase := c.Coinbase
    GasLimit := c.GasLimit
    BlockNumber := c.BlockNumber
    Time := c.Time
    Difficulty := 0
    BaseFee := c.BaseFee
    Random := c.Random }

/-- The struct `vm.TxContext`. -/
structure TxContext where
  Origin : Address
  GasPrice : Nat
deriving DecidableEq, Repr

/-- The struct `logger.Config` of go-ethereum, as filled by `getTracer`. -/
structure LoggerConfig where
  EnableMemory : Bool
  DisableStack : Bool
  DisableStorage : Bool
  EnableReturnData : Bool
deriving DecidableEq, Repr

/-- The method `(t *TraceParams) getTracer`: no tracer for a nil receiver, otherwise a
struct logger built from a configuration that copies the four toggles. -/
def getTracer (t : Option TraceParams) : Option LoggerConfig :=
  match t with
  | none => none
  | some t =>
    some { EnableMemory := t.EnableMemory
           DisableStack := t.DisableStack
           DisableStorage := t.DisableStorage
           EnableReturnData := t.EnableReturnData }

/-- Whether go-ethereum's struct logger records a memory snapshot per step: it does so
exactly when `EnableMemory` is set. -/
def LoggerConfig.collectsMemory (c : LoggerConfig) : Bool := c.EnableMemory

/-- Whether go-ethereum's struct logger records a stack snapshot per step: it does so
exactly when `DisableStack` is not set. -/
def LoggerConfig.collectsStack (c : LoggerConfig) : Bool := !c.DisableStack

/-- Whether go-ethereum's struct logger records storage snapshots: it does so exactly when
`DisableStorage` is not set. -/
def LoggerConfig.collectsStorage (c : LoggerConfig) : Bool := !c.DisableStorage

/-- Whether go-ethereum's struct logger records the return data: it does so exactly when
`EnableReturnData` is set. -/
def LoggerConfig.collectsReturnData (c : LoggerConfig) : Bool := c.EnableReturnData

/-- The fork blocks of `params.ChainConfig` that `defaultChainConfig` sets. -/
structure ChainConfig where
  ChainID : Nat
  HomesteadBlock : Option Nat
  DAOForkBlock : Option Nat
  DAOForkSupport : Bool
  EIP150Block : Option Nat
  EIP155Block : Option Nat
  EIP158Block : Option Nat
  ByzantiumBlock : Option Nat
  ConstantinopleBlock : Option Nat
  PetersburgBlock : Option Nat
  IstanbulBlock : Option Nat
  MuirGlacierBlock : Option Nat
  BerlinBlock : Option Nat
  LondonBlock : Option Nat
deriving DecidableEq, Repr

/-- The function `defaultChainConfig`. -/
def defaultChainConfig : ChainConfig :=
  { ChainID := 1
    HomesteadBlock := some 0
    DAOForkBlock := none
    DAOForkSupport := false
    EIP150Block := some 0
    EIP155Block := some 0
    EIP158Block := some 0
    ByzantiumBlock := some 0
    ConstantinopleBlock := some 0
    PetersburgBlock := some 0
    IstanbulBlock := some 0
    MuirGlacierBlock := some 0
    BerlinBlock := some 0
    LondonBlock := some 0 }

/-- The go-ethereum helper `isForked`: a fork is active when both numbers are present and
the fork block is not after the head. -/
def isForked (s head : Option Nat) : Bool :=
  match s, head with
  | some s, some head => decide (s ≤ head)
  | _, _ => false

/-- The `IsBerlin` field of `ChainConfig.Rules(num, isMerge)`. -/
def ChainConfig.IsBerlin (c : ChainConfig) (num : Option Nat) : Bool :=
  isForked c.BerlinBlock num

/-- The struct `vm.Config` as `EvmApply` fills it (`JumpTable` and `ExtraEips` are nil). -/
structure VmConfig where
  Debug : Bool
  Tracer : Option LoggerConfig
  NoBaseFee : Bool
  EnablePreimageRecording : Bool
deriving DecidableEq, Repr

/-- What `vm.NewEVM` is given, the state view apart (that one is passed on each call). -/
structure EVM where
  Context : BlockContext
  TxCtx : TxContext
  chainConfig : ChainConfig
  Config : VmConfig
deriving DecidableEq, Repr

/-! ## The state view -/

/-- The go-ethereum state view `state.StateDB`: accounts and the transaction access list. -/
structure StateDB where
  nonces : Address → Nat
  balances : Address → Nat
  codes : Address → Bytes
  storage : Address → Hash → Hash
  accessAddresses : List Address
  accessSlots : List (Address × Hash)

/-- The method `StateDB.GetNonce`. -/
def StateDB.GetNonce (db : StateDB) (addr : Address) : Nat := db.nonces addr

/-- The method `StateDB.SetNonce`. -/
def StateDB.SetNonce (db : StateDB) (addr : Address) (nonce : Nat) : StateDB :=
  { db with nonces := fun a => if a = addr then nonce else db.nonces a }

/-- The precompiled contract addresses `vm.ActivePrecompiles` returns under Berlin rules. -/
def ActivePrecompiles : List Address := [1, 2, 3, 4, 5, 6, 7, 8, 9]

/-- The method `StateDB.PrepareAccessList`: the access list is reset and then holds the
sender, the destination when there is one, the precompiles, and the supplied entries. -/
def StateDB.PrepareAccessList (db : StateDB) (sender : Address) (dst : Option Address)
    (precompiles : List Address) (list : List AccessTuple) : StateDB :=
  { db with
    accessAddresses :=
      [sender] ++ dst.toList ++ precompiles ++ list.map (fun el => el.Addr)
    accessSlots :=
      list.flatMap (fun el => el.StorageKeys.map (fun key => (el.Addr, key))) }

/-! ## The interpreter -/

/-- An error value returned by the interpreter: the error values of go-ethereum's
`core/vm/errors.go`, and `other` for any further error value the library returns (an
out-of-gas error wrapping its cause, an error of a precompiled contract).  Go compares error
values by identity, so the sentinel `vm.ErrExecutionReverted` is a constructor of its own
and an error that merely carries the same text is a different value.  No error value of the
library has an empty description; the description of `other` is given by its first
character and the characters after it. -/
inductive VmError where
  | ErrOutOfGas
  | ErrCodeStoreOutOfGas
  | ErrDepth
  | ErrInsufficientBalance
  | ErrContractAddressCollision
  | ErrExecutionReverted
  | ErrMaxCodeSizeExceeded
  | ErrInvalidJump
  | ErrWriteProtection
  | ErrReturnDataOutOfBounds
  | ErrGasUintOverflow
  | ErrInvalidCode
  | ErrNonceUintOverflow
  | ErrStackUnderflow (stackLen required : Nat)
  | ErrStackOverflow (stackLen limit : Nat)
  | ErrInvalidOpCode (opcode : String)
  | other (first : Char) (rest : String)
deriving DecidableEq, Repr

/-- The method `Error()` of an interpreter error. -/
def VmError.Error : VmError → String
  | .ErrOutOfGas => "out of gas"
  | .ErrCodeStoreOutOfGas => "contract creation code storage out of gas"
  | .ErrDepth => "max call depth exceeded"
  | .ErrInsufficientBalance => "insufficient balance for transfer"
  | .ErrContractAddressCollision => "contract address collision"
  | .ErrExecutionReverted => "execution reverted"
  | .ErrMaxCodeSizeExceeded => "max code size exceeded"
  | .ErrInvalidJump => "invalid jump destination"
  | .ErrWriteProtection => "write protection"
  | .ErrReturnDataOutOfBounds => "return data out of bounds"
  | .ErrGasUintOverflow => "gas uint64 overflow"
  | .ErrInvalidCode => "invalid code: must not begin with 0xef"
  | .ErrNonceUintOverflow => "nonce uint64 overflow"
  | .ErrStackUnderflow stackLen required =>
    "stack underflow (" ++ toString stackLen ++ " <=> " ++ toString required ++ ")"
  | .ErrStackOverflow stackLen limit =>
    "stack limit reached " ++ toString stackLen ++ " (" ++ toString limit ++ ")"
  | .ErrInvalidOpCode opcode => "invalid opcode: " ++ opcode
  | .other first rest => String.singleton first ++ rest

/-- One record of the struct logger (`logger.StructLog`), reduced to its scalar fields and
the optional snapshots. -/
structure StructLog where
  Pc : Nat
  Op : Nat
  Gas : Nat
  GasCost : Nat
  Depth : Nat
  Memory : Bytes
  Stack : List Nat
  Storage : List (Hash × Hash)
  ReturnData : Bytes
deriving DecidableEq, Repr

/-- What `evm.Create` returns, with the state view and the tracer's records it leaves. -/
structure CreateReturn where
  ret : Bytes
  contractAddr : Address
  leftOverGas : Nat
  err : Option VmError
  statedb : StateDB
  structLogs : List StructLog

/-- What `evm.Call` returns, with the state view and the tracer's records it leaves. -/
structure CallReturn where
  ret : Bytes
  leftOverGas : Nat
  err : Option VmError
  statedb : StateDB
  structLogs : List StructLog

/-- The go-ethereum interpreter as used by `EvmApply`.
`Create evm statedb caller code gas value` and `Call evm statedb caller addr input gas value`. -/
structure Interpreter where
  Create : EVM → StateDB → Address → Bytes → Nat → Nat → CreateReturn
  Call : EVM → StateDB → Address → Address → Bytes → Nat → Nat → CallReturn

/-- The interpreter never returns more remaining gas than it was handed. -/
def Interpreter.GasBounded (I : Interpreter) : Prop :=
  (∀ evm db caller code gas value, (I.Create evm db caller code gas value).leftOverGas ≤ gas) ∧
  (∀ evm db caller addr input gas value,
    (I.Call evm db caller addr input gas value).leftOverGas ≤ gas)

/-! ## The service and its registry of state views -/

/-- The error of a failed handle lookup. -/
inductive HandleError where
  | ErrInvalidHandle (handle : Int)
deriving DecidableEq, Repr

/-- Modelled from the spec: the registry `s.statedbs` that maps a handle to its live state
view, declared outside `service_evm.go`.  A handle is valid between its open and its
close; this is the map from the valid handles to their state views. -/
structure Handles where
  used : Int → Option StateDB

/-- Modelled from the spec: the lookup `s.statedbs.Get`, declared with the registry outside
`service_evm.go`: it returns the state view of a valid handle and fails on an unknown or closed handle. -/
def Handles.Get (h : Handles) (handle : Int) : Except HandleError StateDB :=
  match h.used handle with
  | some statedb => .ok statedb
  | none => .error (.ErrInvalidHandle handle)

/-- The registry after the state view behind `handle` was mutated in place. -/
def Handles.store (h : Handles) (handle : Int) (statedb : StateDB) : Handles :=
  { used := fun k => if k = handle then some statedb else h.used k }

/-- The receiver `Service`, as far as `EvmApply` uses it. -/
structure Service where
  statedbs : Handles

/-! ## Results -/

/-- One rendered trace record (`geth_internal.StructLogRes`); an optional field is absent
when its snapshot is empty. -/
structure StructLogRes where
  Pc : Nat
  Op : Nat
  Gas : Nat
  GasCost : Nat
  Depth : Nat
  Stack : Option (List Nat)
  Memory : Option Bytes
  Storage : Option (List (Hash × Hash))
deriving DecidableEq, Repr

/-- Modelled from the spec: the function `geth_internal.FormatLogs`, declared outside
`service_evm.go`; it renders the captured step log into the trace-log sequence
of the result, one record per step and in order. -/
def FormatLogs (logs : List StructLog) : List StructLogRes :=
  logs.map fun l =>
    { Pc := l.Pc
      Op := l.Op
      Gas := l.Gas
      GasCost := l.GasCost
      Depth := l.Depth
      Stack := if l.Stack = [] then none else some l.Stack
      Memory := if l.Memory = [] then none else some l.Memory
      Storage := if l.Storage = [] then none else some l.Storage }

/-- The struct `EvmResult`; a nil slice is the empty list, a nil pointer is `none`. -/
structure EvmResult where
  UsedGas : Nat
  EvmError : String
  ReturnData : Bytes
  ContractAddress : Option Address
  TraceLogs : List StructLogRes
  Reverted : Bool
deriving DecidableEq, Repr

/-! ## `EvmApply` -/

/-- The virtual machine `EvmApply` sets up from the defaulted parameters: block context,
transaction context, chain configuration and the tracer-dependent `vm.Config`. -/
def newEVM (params : EvmParams) : EVM :=
  let tracer := getTracer params.TxTraceParams
  { Context := params.Context.getBlockContext
    TxCtx := { Origin := params.From, GasPrice := params.GasPrice }
    chainConfig := defaultChainConfig
    Config :=
      { Debug := tracer.isSome
        Tracer := tracer
        NoBaseFee := false
        EnablePreimageRecording := false } }

/-- The block "Set up the initial access list": under Berlin rules the access list of the
state view is prepared. -/
def setupAccessList (evm : EVM) (params : EvmParams) (statedb : StateDB) : StateDB :=
  if evm.chainConfig.IsBerlin evm.Context.BlockNumber then
    statedb.PrepareAccessList params.From params.To ActivePrecompiles params.AccessList
  else statedb

/-- The start of the creation branch: the nonce of the caller is read and, when positive,
lowered by one.  The result is the state view `evm.Create` is invoked on. -/
def createEntryState (statedb : StateDB) (caller : Address) : StateDB :=
  let nonce := statedb.GetNonce caller
  if nonce > 0 then statedb.SetNonce caller (nonce - 1) else statedb

/-- The end of the creation branch: when the nonce of the caller is not `nonce`, the value
read at the start of the branch, it is set back to it. -/
def createExitState (statedb : StateDB) (caller : Address) (nonce : Nat) : StateDB :=
  if statedb.GetNonce caller ≠ nonce then statedb.SetNonce caller nonce else statedb

/-- The invocation of `evm.Create` in the creation branch, on the state view `statedb` the
branch starts from. -/
def vmCreate (I : Interpreter) (evm : EVM) (params : EvmParams) (statedb : StateDB) :
    CreateReturn :=
  I.Create evm (createEntryState statedb params.From) params.From params.Input
    params.AvailableGas params.Value

/-- The invocation of `evm.Call` in the call branch. -/
def vmCall (I : Interpreter) (evm : EVM) (params : EvmParams) (statedb : StateDB)
    (callee : Address) : CallReturn :=
  I.Call evm statedb params.From callee params.Input params.AvailableGas params.Value

/-- The local variables of `EvmApply` after the dispatch, with the state view and the
records of the tracer. -/
structure Outcome where
  returnData : Bytes
  gas : Nat
  vmerr : Option VmError
  contractAddress : Option Address
  statedb : StateDB
  structLogs : List StructLog

/-- The dispatch of `EvmApply`: contract creation when `To` is nil, a call otherwise. -/
def dispatch (I : Interpreter) (evm : EVM) (params : EvmParams) (statedb : StateDB) :
    Outcome :=
  match params.To with
  | none =>
    let nonce := statedb.GetNonce params.From
    let r := vmCreate I evm params statedb
    { returnData := []
      gas := r.leftOverGas
      vmerr := r.err
      contractAddress := some r.contractAddr
      statedb := createExitState r.statedb params.From nonce
      structLogs := r.structLogs }
  | some callee =>
    let r := vmCall I evm params statedb callee
    { returnData := r.ret
      gas := r.leftOverGas
      vmerr := r.err
      contractAddress := none
      statedb := r.statedb
      structLogs := r.structLogs }

/-- The pair `(error, *EvmResult)` that `EvmApply` returns, with the service afterwards. -/
structure ApplyReturn where
  err : Option HandleError
  result : Option EvmResult
  service : Service

/-- The method `(s *Service) EvmApply`; `now` is the value of `time.Now().Unix()`. -/
def EvmApply (I : Interpreter) (now : Nat) (s : Service) (params : EvmParams) : ApplyReturn :=
  match s.statedbs.Get params.Handle with
  | .error err => { err := some err, result := none, service := s }
  | .ok statedb =>
    let params := params.setDefaults now
    let evm := newEVM params
    let tracer := evm.Config.Tracer
    let statedb := setupAccessList evm params statedb
    let out := dispatch I evm params statedb
    let evmError := match out.vmerr with
      | some vmerr => vmerr.Error
      | none => ""
    let traceLogs := if tracer.isSome then FormatLogs out.structLogs else []
    { err := none
      result := some
        { UsedGas := subUint64 params.AvailableGas out.gas
          EvmError := evmError
          ReturnData := out.returnData
          ContractAddress := out.contractAddress
          TraceLogs := traceLogs
          Reverted := decide (out.vmerr = some VmError.ErrExecutionReverted) }
      service := { statedbs := s.statedbs.store params.Handle out.statedb } }

/-- The gas budget in effect for an invocation: `AvailableGas` after defaulting. -/
def gasBudget (now : Nat) (params : EvmParams) : Nat :=
  (params.setDefaults now).AvailableGas

/-- The create operation of the interpreter as `EvmApply` invokes it for the parameters
`params` on a handle whose state view is `statedb`: after defaulting, after the access-list
setup and after the nonce of the caller was lowered. -/
def createInvocation (I : Interpreter) (now : Nat) (params : EvmParams) (statedb : StateDB) :
    CreateReturn :=
  vmCreate I (newEVM (params.setDefaults now)) (params.setDefaults now)
    (setupAccessList (newEVM (params.setDefaults now)) (params.setDefaults now) statedb)

/-- Modelled from the spec: the account accessor `StateGetNonce`, keyed by state handle and
address, declared outside `service_evm.go`: it reads the nonce off the live
state view behind the handle. -/
def Service.StateGetNonce (s : Service) (handle : Int) (addr : Address) :
    Except HandleError Nat :=
  match s.statedbs.Get handle with
  | .ok statedb => .ok (statedb.GetNonce addr)
  | .error err => .error err

/-! ## Concrete values used in the examples -/

/-- A state view without accounts. -/
def emptyStateDB : StateDB :=
  { nonces := fun _ => 0
    balances := fun _ => 0
    codes := fun _ => []
    storage := fun _ _ => 0
    accessAddresses := []
    accessSlots := [] }

/-- An example interpreter.  Creation with less than 53000 gas fails before the nonce is
touched; otherwise the nonce of the caller is raised by one and the creation reverts on
empty init code and succeeds on any other.  A call with less than 21000 gas fails,
a call with empty input reverts, any other call returns the code of the callee. -/
def sampleInterpreter : Interpreter where
  Create := fun _ db caller code gas _ =>
    if gas < 53000 then
      { ret := [], contractAddr := 0, leftOverGas := 0, err := some .ErrOutOfGas
        statedb := db, structLogs := [] }
    else if code = [] then
      { ret := [], contractAddr := 0, leftOverGas := gas - 53000
        err := some .ErrExecutionReverted
        statedb := db.SetNonce caller (db.GetNonce caller + 1), structLogs := [] }
    else
      { ret := code, contractAddr := 1000 + caller + db.GetNonce caller
        leftOverGas := gas - 53000, err := none
        statedb :=
          { db.SetNonce caller (db.GetNonce caller + 1) with
            codes := fun a => if a = 1000 + caller + db.GetNonce caller then code else db.codes a }
        structLogs := [] }
  Call := fun _ db _ addr input gas _ =>
    if gas < 21000 then
      { ret := [], leftOverGas := 0, err := some .ErrOutOfGas
        statedb := db, structLogs := [] }
    else if input = [] then
      { ret := [], leftOverGas := gas - 21000, err := some .ErrExecutionReverted
        statedb := db, structLogs := [] }
    else
      { ret := db.codes addr, leftOverGas := gas - 21000, err := none
        statedb := db, structLogs := [] }

/-- The account used as caller in the examples. -/
def sampleUser : Address := 7

/-- A state view in which the example caller has the nonce `nonce`. -/
def sampleStateDB (nonce : Nat) : StateDB :=
  { emptyStateDB.SetNonce sampleUser nonce with
    codes := fun a => if a = 1008 then [96, 128] else [] }

/-- A service with a single open state view, under handle `1`. -/
def sampleService (nonce : Nat) : Service :=
  { statedbs := { used := fun k => if k = 1 then some (sampleStateDB nonce) else none } }

/-- An example context with every field left out. -/
def sampleContext : EvmContext :=
  { Coinbase := 0, GasLimit := 0, BlockNumber := none, Time := none, BaseFee := none
    Random := none }

/-- An example contract creation: `To` is absent. -/
def sampleCreate (handle : Int) (input : Bytes) (gas : Nat) : EvmParams :=
  { Handle := handle, From := sampleUser, To := none, Value := 0, Input := input
    AvailableGas := gas, GasPrice := 0, AccessList := [], Context := sampleContext
    TxTraceParams := none }

/-- An example call of the contract at address `1008`. -/
def sampleCall (handle : Int) (input : Bytes) (gas : Nat) : EvmParams :=
  { Handle := handle, From := sampleUser, To := some 1008, Value := 0, Input := input
    AvailableGas := gas, GasPrice := 0, AccessList := [], Context := sampleContext
    TxTraceParams := none }

/-! ## Auxiliary facts -/

theorem GetNonce_SetNonce (db : StateDB) (addr : Address) (nonce : Nat) :
    (db.SetNonce addr nonce).GetNonce addr = nonce := by
  simp [StateDB.GetNonce, StateDB.SetNonce]

theorem GetNonce_PrepareAccessList (db : StateDB) (sender : Address) (dst : Option Address)
    (precompiles : List Address) (list : List AccessTuple) (addr : Address) :
    (db.PrepareAccessList sender dst precompiles list).GetNonce addr = db.GetNonce addr := rfl

theorem GetNonce_setupAccessList (evm : EVM) (params : EvmParams) (db : StateDB)
    (addr : Address) : (setupAccessList evm params db).GetNonce addr = db.GetNonce addr := by
  unfold setupAccessList
  split
  · exact GetNonce_PrepareAccessList ..
  · rfl

theorem GetNonce_createExitState (db : StateDB) (caller : Address) (nonce : Nat) :
    (createExitState db caller nonce).GetNonce caller = nonce := by
  unfold createExitState
  split
  · exact GetNonce_SetNonce ..
  · rename_i h
    exact not_not.mp h

theorem GetNonce_createEntryState (db : StateDB) (caller : Address) :
    (createEntryState db caller).GetNonce caller = db.GetNonce caller - 1 := by
  unfold createEntryState
  by_cases h : db.GetNonce caller > 0
  · simp only [h, if_true]
    exact GetNonce_SetNonce ..
  · simp only [h, if_false]
    omega

theorem setDefaults_From (now : Nat) (p : EvmParams) : (p.setDefaults now).From = p.From := by
  unfold EvmParams.setDefaults
  split <;> rfl

theorem setDefaults_To (now : Nat) (p : EvmParams) : (p.setDefaults now).To = p.To := by
  unfold EvmParams.setDefaults
  split <;> rfl

theorem setDefaults_Handle (now : Nat) (p : EvmParams) :
    (p.setDefaults now).Handle = p.Handle := by
  unfold EvmParams.setDefaults
  split <;> rfl

theorem setDefaults_Input (now : Nat) (p : EvmParams) :
    (p.setDefaults now).Input = p.Input := by
  unfold EvmParams.setDefaults
  split <;> rfl

theorem setDefaults_Value (now : Nat) (p : EvmParams) :
    (p.setDefaults now).Value = p.Value := by
  unfold EvmParams.setDefaults
  split <;> rfl

theorem gasBudget_eq (now : Nat) (p : EvmParams) :
    gasBudget now p = if p.AvailableGas = 0 then MaxInt64 else p.AvailableGas := by
  unfold gasBudget EvmParams.setDefaults
  split <;> rfl

theorem gasBudget_lt (now : Nat) (p : EvmParams) (hlt : p.AvailableGas < 2 ^ 64) :
    gasBudget now p < 2 ^ 64 := by
  rw [gasBudget_eq]
  split
  · unfold MaxInt64
    omega
  · exact hlt

theorem subUint64_add (a b : Nat) (ha : a < 2 ^ 64) (hb : b ≤ a) : subUint64 a b + b = a := by
  unfold subUint64
  omega

theorem ne_empty_of_length_pos (s : String) (h : 0 < s.length) : s ≠ "" := by
  intro hs
  rw [hs] at h
  exact absurd h (by decide)

/-- Every interpreter error has a description that is not empty. -/
theorem VmError.Error_ne_empty (e : VmError) : e.Error ≠ "" := by
  cases e <;>
    first
    | (simp only [VmError.Error]; decide)
    | (apply ne_empty_of_length_pos
       simp only [VmError.Error, String.length_append, String.length_singleton]
       first
       | omega
       | (have : 0 < "stack underflow (".length := by decide
          omega)
       | (have : 0 < "stack limit reached ".length := by decide
          omega)
       | (have : 0 < "invalid opcode: ".length := by decide
          omega))

theorem Get_store (h : Handles) (handle : Int) (db : StateDB) :
    (h.store handle db).Get handle = .ok db := by
  simp [Handles.Get, Handles.store]

/-- The value of `EvmApply` on a valid handle, in one piece. -/
theorem EvmApply_of_Get_ok (I : Interpreter) (now : Nat) (s : Service) (p : EvmParams)
    (statedb : StateDB) (hget : s.statedbs.Get p.Handle = .ok statedb) :
    EvmApply I now s p =
      { err := none
        result := some
          { UsedGas := subUint64 (p.setDefaults now).AvailableGas
              (dispatch I (newEVM (p.setDefaults now)) (p.setDefaults now)
                (setupAccessList (newEVM (p.setDefaults now)) (p.setDefaults now) statedb)).gas
            EvmError :=
              match (dispatch I (newEVM (p.setDefaults now)) (p.setDefaults now)
                (setupAccessList (newEVM (p.setDefaults now)) (p.setDefaults now)
                  statedb)).vmerr with
              | some vmerr => vmerr.Error
              | none => ""
            ReturnData := (dispatch I (newEVM (p.setDefaults now)) (p.setDefaults now)
                (setupAccessList (newEVM (p.setDefaults now)) (p.setDefaults now)
                  statedb)).returnData
            ContractAddress := (dispatch I (newEVM (p.setDefaults now)) (p.setDefaults now)
                (setupAccessList (newEVM (p.setDefaults now)) (p.setDefaults now)
                  statedb)).contractAddress
            TraceLogs :=
              if (newEVM (p.setDefaults now)).Config.Tracer.isSome then
                FormatLogs (dispatch I (newEVM (p.setDefaults now)) (p.setDefaults now)
                  (setupAccessList (newEVM (p.setDefaults now)) (p.setDefaults now)
                    statedb)).structLogs
              else []
            Reverted := decide ((dispatch I (newEVM (p.setDefaults now)) (p.setDefaults now)
                (setupAccessList (newEVM (p.setDefaults now)) (p.setDefaults now)
                  statedb)).vmerr = some VmError.ErrExecutionReverted) }
        service :=
          { statedbs := s.statedbs.store p.Handle
              (dispatch I (newEVM (p.setDefaults now)) (p.setDefaults now)
                (setupAccessList (newEVM (p.setDefaults now)) (p.setDefaults now)
                  statedb)).statedb } } := by
  unfold EvmApply
  rw [hget]
  simp only [setDefaults_Handle]

theorem dispatch_create (I : Interpreter) (evm : EVM) (p : EvmParams) (db : StateDB)
    (hto : p.To = none) :
    dispatch I evm p db =
      { returnData := []
        gas := (vmCreate I evm p db).leftOverGas
        vmerr := (vmCreate I evm p db).err
        contractAddress := some (vmCreate I evm p db).contractAddr
        statedb := createExitState (vmCreate I evm p db).statedb p.From (db.GetNonce p.From)
        structLogs := (vmCreate I evm p db).structLogs } := by
  unfold dispatch
  rw [hto]

theorem dispatch_call (I : Interpreter) (evm : EVM) (p : EvmParams) (db : StateDB)
    (callee : Address) (hto : p.To = some callee) :
    dispatch I evm p db =
      { returnData := (vmCall I evm p db callee).ret
        gas := (vmCall I evm p db callee).leftOverGas
        vmerr := (vmCall I evm p db callee).err
        contractAddress := none
        statedb := (vmCall I evm p db callee).statedb
        structLogs := (vmCall I evm p db callee).structLogs } := by
  unfold dispatch
  rw [hto]

/-! ## Nonce correction around contract creation -/

/-- C1: for every creation invocation (`To` absent) on a valid handle and every behaviour of
the interpreter, the nonce of the caller in the state view after `EvmApply` equals the
nonce `n` read at the start of the creation branch, which is the nonce before the call. -/
theorem EvmApply_create_nonce_restored (I : Interpreter) (now : Nat) (s : Service)
    (p : EvmParams) (statedb : StateDB) (hget : s.statedbs.Get p.Handle = .ok statedb)
    (hto : p.To = none) :
    (setupAccessList (newEVM (p.setDefaults now)) (p.setDefaults now) statedb).GetNonce p.From
        = statedb.GetNonce p.From ∧
      (EvmApply I now s p).service.StateGetNonce p.Handle p.From
        = .ok (statedb.GetNonce p.From) := by
  refine ⟨GetNonce_setupAccessList .., ?_⟩
  rw [EvmApply_of_Get_ok I now s p statedb hget]
  simp only [Service.StateGetNonce, Get_store]
  rw [dispatch_create _ _ _ _ (by rw [setDefaults_To]; exact hto)]
  simp only [setDefaults_From, GetNonce_createExitState, GetNonce_setupAccessList]

/-- Witness of C1: with the nonce set to 2 before a deployment it is 2 afterwards, both for
a creation that succeeds and raises the nonce itself and for one that fails before. -/
theorem EvmApply_create_nonce_restored_witness :
    (EvmApply sampleInterpreter 0 (sampleService 2)
        (sampleCreate 1 [96, 128] 200000)).service.StateGetNonce 1 sampleUser = .ok 2 ∧
      (EvmApply sampleInterpreter 0 (sampleService 2)
        (sampleCreate 1 [96, 128] 100)).service.StateGetNonce 1 sampleUser = .ok 2 :=
  ⟨(EvmApply_create_nonce_restored sampleInterpreter 0 (sampleService 2)
      (sampleCreate 1 [96, 128] 200000) (sampleStateDB 2) rfl rfl).2,
   (EvmApply_create_nonce_restored sampleInterpreter 0 (sampleService 2)
      (sampleCreate 1 [96, 128] 100) (sampleStateDB 2) rfl rfl).2⟩

/-- C2, counterexample: a creation invocation whose create operation succeeds, on a state
view where the caller has nonce 2, leaves the nonce at 2 and not at 3. -/
theorem EvmApply_create_success_nonce_counterexample :
    (sampleCreate 1 [96, 128] 200000).To = none ∧
      (createInvocation sampleInterpreter 0 (sampleCreate 1 [96, 128] 200000)
        (sampleStateDB 2)).err = none ∧
      (EvmApply sampleInterpreter 0 (sampleService 2)
        (sampleCreate 1 [96, 128] 200000)).result.map (fun r => r.EvmError) = some "" ∧
      (sampleService 2).StateGetNonce 1 sampleUser = .ok 2 ∧
      (EvmApply sampleInterpreter 0 (sampleService 2)
        (sampleCreate 1 [96, 128] 200000)).service.StateGetNonce 1 sampleUser = .ok 2 ∧
      (EvmApply sampleInterpreter 0 (sampleService 2)
        (sampleCreate 1 [96, 128] 200000)).service.StateGetNonce 1 sampleUser ≠ .ok (2 + 1) := by
  refine ⟨rfl, rfl, rfl, rfl, rfl, ?_⟩
  show Except.ok 2 ≠ Except.ok (2 + 1)
  intro h
  cases h

/-- C2, amended: for every creation invocation (`To` absent) on a valid handle for which the
create operation of the interpreter reports no error, the nonce of the caller after
`EvmApply` equals the nonce of the caller before `EvmApply`; when that nonce is positive it
is one more than the nonce the create operation was started on. -/
theorem EvmApply_create_success_nonce (I : Interpreter) (now : Nat) (s : Service)
    (p : EvmParams) (statedb : StateDB) (hget : s.statedbs.Get p.Handle = .ok statedb)
    (hto : p.To = none)
    (_hok : (createInvocation I now p statedb).err = none) :
    s.StateGetNonce p.Handle p.From = .ok (statedb.GetNonce p.From) ∧
      (EvmApply I now s p).service.StateGetNonce p.Handle p.From
        = .ok (statedb.GetNonce p.From) ∧
      (0 < statedb.GetNonce p.From →
        statedb.GetNonce p.From =
          (createEntryState
            (setupAccessList (newEVM (p.setDefaults now)) (p.setDefaults now) statedb)
            p.From).GetNonce p.From + 1) := by
  refine ⟨by simp only [Service.StateGetNonce, hget], ?_, ?_⟩
  · rw [EvmApply_of_Get_ok I now s p statedb hget]
    simp only [Service.StateGetNonce, Get_store]
    rw [dispatch_create _ _ _ _ (by rw [setDefaults_To]; exact hto)]
    simp only [setDefaults_From, GetNonce_createExitState, GetNonce_setupAccessList]
  · intro hpos
    rw [GetNonce_createEntryState, GetNonce_setupAccessList]
    omega

/-- Witness of C2 (amended): a successful deployment at nonce 2 leaves the nonce at 2, one
more than the nonce 1 the create operation was started on. -/
theorem EvmApply_create_success_nonce_witness :
    (EvmApply sampleInterpreter 0 (sampleService 2)
        (sampleCreate 1 [96, 128] 200000)).service.StateGetNonce 1 sampleUser = .ok 2 ∧
      (0 < 2 → 2 = (createEntryState (sampleStateDB 2) sampleUser).GetNonce sampleUser + 1) :=
  (EvmApply_create_success_nonce sampleInterpreter 0 (sampleService 2)
    (sampleCreate 1 [96, 128] 200000) (sampleStateDB 2) rfl rfl rfl).2

/-- C10: in the creation branch the create operation of the interpreter is invoked on a
state view in which the nonce of the caller is `n - 1` when the nonce `n` before the call is
positive and `0` when `n` is `0`; two state views that differ only in the caller having
nonce 0 or nonce 1 hand the interpreter the same state view, with caller nonce 0. -/
theorem EvmApply_create_entry_nonce (I : Interpreter) (now : Nat) (s : Service)
    (p : EvmParams) (statedb : StateDB) (hget : s.statedbs.Get p.Handle = .ok statedb)
    (hto : p.To = none) :
    (EvmApply I now s p).result.map (fun r => r.ContractAddress) =
        some (some (I.Create (newEVM (p.setDefaults now))
          (createEntryState
            (setupAccessList (newEVM (p.setDefaults now)) (p.setDefaults now) statedb) p.From)
          p.From p.Input (gasBudget now p) p.Value).contractAddr) ∧
      (0 < statedb.GetNonce p.From →
        (createEntryState
          (setupAccessList (newEVM (p.setDefaults now)) (p.setDefaults now) statedb)
          p.From).GetNonce p.From = statedb.GetNonce p.From - 1) ∧
      (statedb.GetNonce p.From = 0 →
        (createEntryState
          (setupAccessList (newEVM (p.setDefaults now)) (p.setDefaults now) statedb)
          p.From).GetNonce p.From = 0) ∧
      createEntryState (setupAccessList (newEVM (p.setDefaults now)) (p.setDefaults now)
          (statedb.SetNonce p.From 1)) p.From
        = createEntryState (setupAccessList (newEVM (p.setDefaults now)) (p.setDefaults now)
          (statedb.SetNonce p.From 0)) p.From ∧
      (createEntryState (setupAccessList (newEVM (p.setDefaults now)) (p.setDefaults now)
          (statedb.SetNonce p.From 1)) p.From).GetNonce p.From = 0 ∧
      (createEntryState (setupAccessList (newEVM (p.setDefaults now)) (p.setDefaults now)
          (statedb.SetNonce p.From 0)) p.From).GetNonce p.From = 0 := by
  refine ⟨?_, ?_, ?_, ?_, ?_, ?_⟩
  · rw [EvmApply_of_Get_ok I now s p statedb hget]
    rw [dispatch_create _ _ _ _ (by rw [setDefaults_To]; exact hto)]
    simp only [Option.map_some', vmCreate, gasBudget, setDefaults_From]
    have hin : (p.setDefaults now).Input = p.Input := by
      unfold EvmParams.setDefaults; split <;> rfl
    have hval : (p.setDefaults now).Value = p.Value := by
      unfold EvmParams.setDefaults; split <;> rfl
    rw [hin, hval]
  · intro _
    rw [GetNonce_createEntryState, GetNonce_setupAccessList]
  · intro h0
    rw [GetNonce_createEntryState, GetNonce_setupAccessList, h0]
  · unfold createEntryState
    simp only [GetNonce_setupAccessList, GetNonce_SetNonce, gt_iff_lt, Nat.lt_irrefl, if_false,
      Nat.zero_lt_one, if_true]
    unfold setupAccessList
    split
    · simp only [StateDB.SetNonce, StateDB.PrepareAccessList]
      congr 1
      funext a
      by_cases h : a = p.From <;> simp [h]
    · simp only [StateDB.SetNonce]
      congr 1
      funext a
      by_cases h : a = p.From <;> simp [h]
  · rw [GetNonce_createEntryState, GetNonce_setupAccessList, GetNonce_SetNonce]
  · rw [GetNonce_createEntryState, GetNonce_setupAccessList, GetNonce_SetNonce]

/-- Witness of C10: a deployment at nonce 2 starts the create operation at nonce 1, and
deployments at nonce 1 and at nonce 0 both start it at nonce 0. -/
theorem EvmApply_create_entry_nonce_witness :
    (0 < 2 → (createEntryState (sampleStateDB 2) sampleUser).GetNonce sampleUser = 2 - 1) ∧
      (createEntryState (sampleStateDB 1) sampleUser).GetNonce sampleUser = 0 ∧
      (createEntryState (sampleStateDB 0) sampleUser).GetNonce sampleUser = 0 :=
  ⟨(EvmApply_create_entry_nonce sampleInterpreter 0 (sampleService 2)
      (sampleCreate 1 [96, 128] 200000) (sampleStateDB 2) rfl rfl).2.1,
   (EvmApply_create_entry_nonce sampleInterpreter 0 (sampleService 2)
      (sampleCreate 1 [96, 128] 200000) (sampleStateDB 2) rfl rfl).2.2.2.2⟩

/-! ## Gas accounting -/

/-- C3: for every invocation on a valid state handle, with an interpreter that never returns
more remaining gas than it was handed, `UsedGas` is the gas budget in effect (the supplied
`AvailableGas`, or the default when zero was supplied) minus the gas that `evm.Create`,
respectively `evm.Call`, reports remaining when handed that budget, without wrap-around,
and `UsedGas` is at most the gas budget; in the creation branch and in the call branch
alike. -/
theorem EvmApply_UsedGas (I : Interpreter) (now : Nat) (s : Service) (p : EvmParams)
    (statedb : StateDB) (hget : s.statedbs.Get p.Handle = .ok statedb)
    (hlt : p.AvailableGas < 2 ^ 64) (hI : I.GasBounded) :
    gasBudget now p = (if p.AvailableGas = 0 then MaxInt64 else p.AvailableGas) ∧
      ∃ r, (EvmApply I now s p).result = some r ∧
        (p.To = none →
          (I.Create (newEVM (p.setDefaults now))
            (createEntryState
              (setupAccessList (newEVM (p.setDefaults now)) (p.setDefaults now) statedb) p.From)
            p.From p.Input (gasBudget now p) p.Value).leftOverGas ≤ gasBudget now p ∧
          r.UsedGas + (I.Create (newEVM (p.setDefaults now))
            (createEntryState
              (setupAccessList (newEVM (p.setDefaults now)) (p.setDefaults now) statedb) p.From)
            p.From p.Input (gasBudget now p) p.Value).leftOverGas = gasBudget now p ∧
          (r.UsedGas : Int) = (gasBudget now p : Int) - ((I.Create (newEVM (p.setDefaults now))
            (createEntryState
              (setupAccessList (newEVM (p.setDefaults now)) (p.setDefaults now) statedb) p.From)
            p.From p.Input (gasBudget now p) p.Value).leftOverGas : Int)) ∧
        (∀ callee, p.To = some callee →
          (I.Call (newEVM (p.setDefaults now))
            (setupAccessList (newEVM (p.setDefaults now)) (p.setDefaults now) statedb)
            p.From callee p.Input (gasBudget now p) p.Value).leftOverGas ≤ gasBudget now p ∧
          r.UsedGas + (I.Call (newEVM (p.setDefaults now))
            (setupAccessList (newEVM (p.setDefaults now)) (p.setDefaults now) statedb)
            p.From callee p.Input (gasBudget now p) p.Value).leftOverGas = gasBudget now p ∧
          (r.UsedGas : Int) = (gasBudget now p : Int) - ((I.Call (newEVM (p.setDefaults now))
            (setupAccessList (newEVM (p.setDefaults now)) (p.setDefaults now) statedb)
            p.From callee p.Input (gasBudget now p) p.Value).leftOverGas : Int)) ∧
        0 ≤ r.UsedGas ∧ r.UsedGas ≤ gasBudget now p := by
  refine ⟨gasBudget_eq now p, ?_⟩
  rw [EvmApply_of_Get_ok I now s p statedb hget]
  have hcre : ∀ hto : p.To = none,
      (dispatch I (newEVM (p.setDefaults now)) (p.setDefaults now)
        (setupAccessList (newEVM (p.setDefaults now)) (p.setDefaults now) statedb)).gas
        = (I.Create (newEVM (p.setDefaults now))
            (createEntryState
              (setupAccessList (newEVM (p.setDefaults now)) (p.setDefaults now) statedb) p.From)
            p.From p.Input (gasBudget now p) p.Value).leftOverGas := by
    intro hto
    rw [dispatch_create _ _ _ _ (by rw [setDefaults_To]; exact hto)]
    simp only [vmCreate, setDefaults_From, setDefaults_Input, setDefaults_Value, gasBudget]
  have hcal : ∀ callee, p.To = some callee →
      (dispatch I (newEVM (p.setDefaults now)) (p.setDefaults now)
        (setupAccessList (newEVM (p.setDefaults now)) (p.setDefaults now) statedb)).gas
        = (I.Call (newEVM (p.setDefaults now))
            (setupAccessList (newEVM (p.setDefaults now)) (p.setDefaults now) statedb)
            p.From callee p.Input (gasBudget now p) p.Value).leftOverGas := by
    intro callee hto
    rw [dispatch_call _ _ _ _ callee (by rw [setDefaults_To]; exact hto)]
    simp only [vmCall, setDefaults_From, setDefaults_Input, setDefaults_Value, gasBudget]
  refine ⟨_, rfl, ?_, ?_, Nat.zero_le _, ?_⟩
  · intro hto
    have hle : (I.Create (newEVM (p.setDefaults now))
            (createEntryState
              (setupAccessList (newEVM (p.setDefaults now)) (p.setDefaults now) statedb) p.From)
            p.From p.Input (gasBudget now p) p.Value).leftOverGas ≤ gasBudget now p := hI.1 ..
    have hadd := subUint64_add _ _ (gasBudget_lt now p hlt) hle
    simp only [hcre hto]
    refine ⟨hle, hadd, ?_⟩
    have hadd2 := hadd
    simp only [gasBudget] at hadd2 ⊢
    omega
  · intro callee hto
    have hle : (I.Call (newEVM (p.setDefaults now))
            (setupAccessList (newEVM (p.setDefaults now)) (p.setDefaults now) statedb)
            p.From callee p.Input (gasBudget now p) p.Value).leftOverGas ≤ gasBudget now p := hI.2 ..
    have hadd := subUint64_add _ _ (gasBudget_lt now p hlt) hle
    simp only [hcal callee hto]
    refine ⟨hle, hadd, ?_⟩
    have hadd2 := hadd
    simp only [gasBudget] at hadd2 ⊢
    omega
  · show subUint64 (gasBudget now p) _ ≤ gasBudget now p
    cases hto : p.To with
    | none =>
      rw [hcre hto]
      have hle : (I.Create (newEVM (p.setDefaults now))
            (createEntryState
              (setupAccessList (newEVM (p.setDefaults now)) (p.setDefaults now) statedb) p.From)
            p.From p.Input (gasBudget now p) p.Value).leftOverGas ≤ gasBudget now p := hI.1 ..
      have := subUint64_add _ _ (gasBudget_lt now p hlt) hle
      omega
    | some callee =>
      rw [hcal callee hto]
      have hle : (I.Call (newEVM (p.setDefaults now))
            (setupAccessList (newEVM (p.setDefaults now)) (p.setDefaults now) statedb)
            p.From callee p.Input (gasBudget now p) p.Value).leftOverGas ≤ gasBudget now p := hI.2 ..
      have := subUint64_add _ _ (gasBudget_lt now p hlt) hle
      omega

theorem sampleInterpreter_GasBounded : sampleInterpreter.GasBounded := by
  constructor
  · intro evm db caller code gas value
    simp only [sampleInterpreter]
    split
    · exact Nat.zero_le _
    · split <;> exact Nat.sub_le _ _
  · intro evm db caller addr input gas value
    simp only [sampleInterpreter]
    split
    · exact Nat.zero_le _
    · split <;> exact Nat.sub_le _ _

/-- Witness of C3: a call with a budget of 200000 of which the interpreter leaves 179000
has `UsedGas` 21000, a call without a budget gets the default budget and has `UsedGas`
21000 as well, a call that runs out of gas has the whole budget as `UsedGas`, and a
deployment with a budget of 200000 of which the interpreter leaves 147000 has `UsedGas`
53000. -/
theorem EvmApply_UsedGas_witness :
    (∃ r, (EvmApply sampleInterpreter 0 (sampleService 2) (sampleCall 1 [1] 200000)).result
        = some r ∧
      (∀ callee, (sampleCall 1 [1] 200000).To = some callee →
        r.UsedGas + (sampleInterpreter.Call (newEVM ((sampleCall 1 [1] 200000).setDefaults 0))
          (setupAccessList (newEVM ((sampleCall 1 [1] 200000).setDefaults 0))
            ((sampleCall 1 [1] 200000).setDefaults 0) (sampleStateDB 2))
          sampleUser callee [1] 200000 0).leftOverGas = 200000) ∧
      r.UsedGas ≤ 200000) ∧
      (sampleInterpreter.Call (newEVM ((sampleCall 1 [1] 200000).setDefaults 0))
          (setupAccessList (newEVM ((sampleCall 1 [1] 200000).setDefaults 0))
            ((sampleCall 1 [1] 200000).setDefaults 0) (sampleStateDB 2))
          sampleUser 1008 [1] 200000 0).leftOverGas = 179000 ∧
      (EvmApply sampleInterpreter 0 (sampleService 2) (sampleCall 1 [1] 200000)).result.map
        (fun r => r.UsedGas) = some 21000 ∧
      (EvmApply sampleInterpreter 0 (sampleService 2) (sampleCall 1 [1] 0)).result.map
        (fun r => r.UsedGas) = some 21000 ∧
      (EvmApply sampleInterpreter 0 (sampleService 2) (sampleCall 1 [1] 20000)).result.map
        (fun r => r.UsedGas) = some 20000 ∧
      (EvmApply sampleInterpreter 0 (sampleService 2)
        (sampleCreate 1 [96, 128] 200000)).result.map (fun r => r.UsedGas) = some 53000 :=
  ⟨Exists.imp (fun _ h => ⟨h.1, fun callee hc => (h.2.2.1 callee hc).2.1, h.2.2.2.2⟩)
    (EvmApply_UsedGas sampleInterpreter 0 (sampleService 2) (sampleCall 1 [1] 200000)
      (sampleStateDB 2) rfl (by decide) sampleInterpreter_GasBounded).2,
   rfl, rfl, rfl, rfl, rfl⟩

/-! ## Classification of the interpreter outcome -/

/-- C4: for every invocation on a valid state handle and every interpreter outcome, where
`vmerr` is the error `evm.Create` returns in the creation branch and the error `evm.Call`
returns in the call branch: `Reverted` is true if and only if `vmerr` is the
execution-reverted error; without an error `EvmError` is the empty string and `Reverted` is
false; with any other error `Reverted` is false and `EvmError` is the description of that
error, which is not empty. -/
theorem EvmApply_error_classification (I : Interpreter) (now : Nat) (s : Service)
    (p : EvmParams) (statedb : StateDB) (hget : s.statedbs.Get p.Handle = .ok statedb) :
    ∃ r vmerr, (EvmApply I now s p).result = some r ∧
      (p.To = none → vmerr = (I.Create (newEVM (p.setDefaults now))
          (createEntryState
            (setupAccessList (newEVM (p.setDefaults now)) (p.setDefaults now) statedb) p.From)
          p.From p.Input (gasBudget now p) p.Value).err) ∧
      (∀ callee, p.To = some callee → vmerr = (I.Call (newEVM (p.setDefaults now))
          (setupAccessList (newEVM (p.setDefaults now)) (p.setDefaults now) statedb)
          p.From callee p.Input (gasBudget now p) p.Value).err) ∧
      (r.Reverted = true ↔ vmerr = some VmError.ErrExecutionReverted) ∧
      (vmerr = none → r.EvmError = "" ∧ r.Reverted = false) ∧
      (∀ e, vmerr = some e → e ≠ VmError.ErrExecutionReverted →
        r.Reverted = false ∧ r.EvmError = e.Error ∧ r.EvmError ≠ "") := by
  rw [EvmApply_of_Get_ok I now s p statedb hget]
  refine ⟨_, (dispatch I (newEVM (p.setDefaults now)) (p.setDefaults now)
    (setupAccessList (newEVM (p.setDefaults now)) (p.setDefaults now) statedb)).vmerr,
    rfl, ?_, ?_, ?_, ?_, ?_⟩
  · intro hto
    rw [dispatch_create _ _ _ _ (by rw [setDefaults_To]; exact hto)]
    simp only [vmCreate, setDefaults_From, setDefaults_Input, setDefaults_Value, gasBudget]
  · intro callee hto
    rw [dispatch_call _ _ _ _ callee (by rw [setDefaults_To]; exact hto)]
    simp only [vmCall, setDefaults_From, setDefaults_Input, setDefaults_Value, gasBudget]
  · simp only [decide_eq_true_eq]
  · intro hnone
    simp only [hnone, decide_eq_false_iff_not]
    exact ⟨trivial, fun h => by cases h⟩
  · intro e he hne
    simp only [he, decide_eq_false_iff_not]
    exact ⟨fun h => hne (Option.some.inj h), trivial, VmError.Error_ne_empty e⟩

/-- Witness of C4: a call that reverts is reported with `Reverted` true; a call and a
deployment that run out of gas are reported with `Reverted` false and the description of
the error; a call and a deployment that succeed are reported with `Reverted` false and the
empty string. -/
theorem EvmApply_error_classification_witness :
    (∃ r vmerr, (EvmApply sampleInterpreter 0 (sampleService 2) (sampleCall 1 [] 200000)).result
        = some r ∧
      (∀ callee, (sampleCall 1 [] 200000).To = some callee →
        vmerr = (sampleInterpreter.Call (newEVM ((sampleCall 1 [] 200000).setDefaults 0))
          (setupAccessList (newEVM ((sampleCall 1 [] 200000).setDefaults 0))
            ((sampleCall 1 [] 200000).setDefaults 0) (sampleStateDB 2))
          sampleUser callee [] 200000 0).err) ∧
      (r.Reverted = true ↔ vmerr = some VmError.ErrExecutionReverted) ∧
      (vmerr = none → r.EvmError = "" ∧ r.Reverted = false) ∧
      (∀ e, vmerr = some e → e ≠ VmError.ErrExecutionReverted →
        r.Reverted = false ∧ r.EvmError = e.Error ∧ r.EvmError ≠ "")) ∧
      (sampleInterpreter.Call (newEVM ((sampleCall 1 [] 200000).setDefaults 0))
          (setupAccessList (newEVM ((sampleCall 1 [] 200000).setDefaults 0))
            ((sampleCall 1 [] 200000).setDefaults 0) (sampleStateDB 2))
          sampleUser 1008 [] 200000 0).err = some VmError.ErrExecutionReverted ∧
      (EvmApply sampleInterpreter 0 (sampleService 2) (sampleCall 1 [] 200000)).result.map
        (fun r => (r.Reverted, r.EvmError)) = some (true, "execution reverted") ∧
      (EvmApply sampleInterpreter 0 (sampleService 2) (sampleCall 1 [1] 100)).result.map
        (fun r => (r.Reverted, r.EvmError)) = some (false, "out of gas") ∧
      (EvmApply sampleInterpreter 0 (sampleService 2) (sampleCall 1 [1] 200000)).result.map
        (fun r => (r.Reverted, r.EvmError)) = some (false, "") ∧
      (EvmApply sampleInterpreter 0 (sampleService 2)
        (sampleCreate 1 [96, 128] 100)).result.map
          (fun r => (r.Reverted, r.EvmError)) = some (false, "out of gas") ∧
      (EvmApply sampleInterpreter 0 (sampleService 2)
        (sampleCreate 1 [] 200000)).result.map
          (fun r => (r.Reverted, r.EvmError)) = some (true, "execution reverted") ∧
      (EvmApply sampleInterpreter 0 (sampleService 2)
        (sampleCreate 1 [96, 128] 200000)).result.map
          (fun r => (r.Reverted, r.EvmError)) = some (false, "") :=
  ⟨Exists.imp (fun _ hr => Exists.imp (fun _ h => ⟨h.1, h.2.2.1, h.2.2.2⟩) hr)
    (EvmApply_error_classification sampleInterpreter 0 (sampleService 2)
      (sampleCall 1 [] 200000) (sampleStateDB 2) rfl),
   rfl, rfl, rfl, rfl, rfl, rfl, rfl⟩

/-! ## Failure of `EvmApply` itself -/

/-- C5: `EvmApply` returns an error if and only if the lookup of the state handle fails;
when the lookup fails it returns that error with a nil result and leaves every state view of
the service as it was; when the lookup succeeds it returns a nil error and a non-nil result,
for every interpreter and so for every interpreter outcome. -/
theorem EvmApply_error_iff_lookup_fails (I : Interpreter) (now : Nat) (s : Service)
    (p : EvmParams) :
    ((EvmApply I now s p).err ≠ none ↔ ∃ e, s.statedbs.Get p.Handle = .error e) ∧
      (∀ e, s.statedbs.Get p.Handle = .error e →
        (EvmApply I now s p).err = some e ∧ (EvmApply I now s p).result = none ∧
          (EvmApply I now s p).service = s) ∧
      (∀ statedb, s.statedbs.Get p.Handle = .ok statedb →
        (EvmApply I now s p).err = none ∧ (EvmApply I now s p).result ≠ none) := by
  cases hget : s.statedbs.Get p.Handle with
  | error e =>
    have happ : EvmApply I now s p = { err := some e, result := none, service := s } := by
      unfold EvmApply
      rw [hget]
    rw [happ]
    refine ⟨⟨fun _ => ⟨e, rfl⟩, fun _ h => by cases h⟩, ?_, ?_⟩
    · intro e1 he1
      cases he1
      exact ⟨rfl, rfl, rfl⟩
    · intro statedb h
      cases h
  | ok statedb =>
    rw [EvmApply_of_Get_ok I now s p statedb hget]
    refine ⟨⟨fun h => absurd rfl h, fun h => ?_⟩, ?_, ?_⟩
    · obtain ⟨e, he⟩ := h
      cases he
    · intro e h
      cases h
    · intro st _
      exact ⟨rfl, fun h => by cases h⟩

/-- Witness of C5: on the unknown handle 5 the lookup error is returned without a result
and the service is unchanged; on the open handle 1 there is a result and no error, also
when the interpreter runs out of gas. -/
theorem EvmApply_error_iff_lookup_fails_witness :
    ((EvmApply sampleInterpreter 0 (sampleService 2) (sampleCreate 5 [96, 128] 200000)).err
        = some (.ErrInvalidHandle 5) ∧
      (EvmApply sampleInterpreter 0 (sampleService 2) (sampleCreate 5 [96, 128] 200000)).result
        = none ∧
      (EvmApply sampleInterpreter 0 (sampleService 2) (sampleCreate 5 [96, 128] 200000)).service
        = sampleService 2) ∧
      ((EvmApply sampleInterpreter 0 (sampleService 2) (sampleCreate 1 [96, 128] 100)).err
        = none ∧
      (EvmApply sampleInterpreter 0 (sampleService 2) (sampleCreate 1 [96, 128] 100)).result
        ≠ none) :=
  ⟨(EvmApply_error_iff_lookup_fails sampleInterpreter 0 (sampleService 2)
      (sampleCreate 5 [96, 128] 200000)).2.1 (.ErrInvalidHandle 5) rfl,
   (EvmApply_error_iff_lookup_fails sampleInterpreter 0 (sampleService 2)
      (sampleCreate 1 [96, 128] 100)).2.2 (sampleStateDB 2) rfl⟩

/-! ## Contract address and return data -/

/-- C6, counterexample: for a parameter set with `AvailableGas` zero and a context with
`GasLimit` zero, `setDefaults` fills in `2 ^ 63 - 1`, which is not `2 ^ 64 - 1`. -/
theorem setDefaults_gas_counterexample :
    (sampleCreate 1 [] 0).AvailableGas = 0 ∧
      ((sampleCreate 1 [] 0).setDefaults 0).AvailableGas = 2 ^ 63 - 1 ∧
      ((sampleCreate 1 [] 0).setDefaults 0).AvailableGas ≠ MaxUint64 ∧
      sampleContext.GasLimit = 0 ∧
      (sampleContext.setDefaults 0).GasLimit = 2 ^ 63 - 1 ∧
      (sampleContext.setDefaults 0).GasLimit ≠ MaxUint64 ∧
      MaxUint64 = 2 ^ 64 - 1 := by
  refine ⟨rfl, rfl, ?_, rfl, rfl, ?_, rfl⟩
  · show (2 ^ 63 - 1 : Nat) ≠ 2 ^ 64 - 1
    decide
  · show (2 ^ 63 - 1 : Nat) ≠ 2 ^ 64 - 1
    decide

/-- C6, amended: for every parameter set whose `AvailableGas` is zero, `setDefaults`
replaces it with `math.MaxInt64`, the maximum of a signed 64-bit integer (`2 ^ 63 - 1`), and
for every context whose `GasLimit` is zero, `setDefaults` replaces it with that same value,
also when the context is defaulted as part of a parameter set. -/
theorem setDefaults_gas (now : Nat) (p : EvmParams) (c : EvmContext) :
    (p.AvailableGas = 0 → (p.setDefaults now).AvailableGas = 2 ^ 63 - 1) ∧
      (c.GasLimit = 0 → (c.setDefaults now).GasLimit = 2 ^ 63 - 1) ∧
      (p.Context.GasLimit = 0 → (p.setDefaults now).Context.GasLimit = 2 ^ 63 - 1) := by
  have hctx : ∀ c : EvmContext, c.GasLimit = 0 → (c.setDefaults now).GasLimit = 2 ^ 63 - 1 := by
    intro c h
    unfold EvmContext.setDefaults
    simp only
    split_ifs <;> rfl
  refine ⟨?_, hctx c, ?_⟩
  · intro h
    unfold EvmParams.setDefaults
    simp only [h, if_true]
    rfl
  · intro h
    have : (p.setDefaults now).Context = p.Context.setDefaults now := by
      unfold EvmParams.setDefaults
      split <;> rfl
    rw [this]
    exact hctx _ h

/-- Witness of C6 (amended): the defaults at a parameter set and a context with zero gas
fields. -/
theorem setDefaults_gas_witness :
    ((sampleCreate 1 [] 0).setDefaults 0).AvailableGas = 9223372036854775807 ∧
      (sampleContext.setDefaults 0).GasLimit = 9223372036854775807 :=
  ⟨(setDefaults_gas 0 (sampleCreate 1 [] 0) sampleContext).1 rfl,
   (setDefaults_gas 0 (sampleCreate 1 [] 0) sampleContext).2.1 rfl⟩

/-! ## Tracer configuration -/

/-- C7, counterexample: with every toggle at its default value `false`, the tracer
configuration built by `getTracer` collects the stack and the storage snapshots. -/
theorem getTracer_default_counterexample :
    (getTracer (some
        { EnableMemory := false, DisableStack := false, DisableStorage := false
          EnableReturnData := false })).map
      (fun cfg => (cfg.collectsMemory, cfg.collectsStack, cfg.collectsStorage))
      = some (false, true, true) := rfl

/-- C7, amended: the tracer configuration built by `getTracer` from a trace configuration
collects the memory snapshot only when `EnableMemory` is set, and collects the stack and the
storage snapshots unless `DisableStack`, respectively `DisableStorage`, is set; so with
every toggle at its default value `false` it collects no memory snapshot and collects the
stack and the storage snapshots.  Without a trace configuration there is no tracer. -/
theorem getTracer_collects (t : TraceParams) :
    getTracer none = none ∧
      ∃ cfg, getTracer (some t) = some cfg ∧
        (cfg.collectsMemory = true ↔ t.EnableMemory = true) ∧
        (cfg.collectsStack = true ↔ t.DisableStack = false) ∧
        (cfg.collectsStorage = true ↔ t.DisableStorage = false) ∧
        (t.EnableMemory = false → t.DisableStack = false → t.DisableStorage = false →
          cfg.collectsMemory = false ∧ cfg.collectsStack = true ∧
            cfg.collectsStorage = true) := by
  refine ⟨rfl, _, rfl, ?_, ?_, ?_, ?_⟩
  · simp [LoggerConfig.collectsMemory]
  · simp [LoggerConfig.collectsStack]
  · simp [LoggerConfig.collectsStorage]
  · intro h1 h2 h3
    simp [LoggerConfig.collectsMemory, LoggerConfig.collectsStack,
      LoggerConfig.collectsStorage, h1, h2, h3]

/-- Witness of C7 (amended): the configuration built from the all-default toggles. -/
theorem getTracer_collects_witness :
    ∃ cfg, getTracer (some
        { EnableMemory := false, DisableStack := false, DisableStorage := false
          EnableReturnData := false }) = some cfg ∧
      cfg.collectsMemory = false ∧ cfg.collectsStack = true ∧ cfg.collectsStorage = true :=
  let h := (getTracer_collects
    { EnableMemory := false, DisableStack := false, DisableStorage := false
      EnableReturnData := false }).2
  ⟨h.choose, h.choose_spec.1, h.choose_spec.2.2.2.2 rfl rfl rfl⟩

end LibEvm
